import Mathlib

/-!
# ShopnarShop storefront script (`src/script.js`)

A shallow embedding of the catalog generator, the paginated product view, the
cart kept in local storage, the checkout and the address suggestions of
`script.js`, followed by the properties proved about them.

Conventions of the embedding.

* JavaScript numbers that the script handles are whole numbers (ids, prices in
  taka, quantities, page numbers); they are `Int`.  `Math.random()` returns a
  rational in the model and `Math.floor` is the floor of rationals.
* The module-level `let` variables and the parts of the page that the script
  reads or writes form the record `State`; every function of the script that
  touches them is a function on `State`.
* A text kept in `localStorage` is represented by what `JSON.parse` makes of it
  (`Text`): the empty string, a text that `JSON.parse` rejects, or a JSON value.
  `JSON.stringify v` is the text that parses back to `v`.
* `String.prototype.toLowerCase` is a function of the platform; the functions
  that use it take it as their first argument.
* Of the page only what the script reads back or what a property below speaks of
  is kept: the two inputs of the product grid, the visibility of the load-more
  button and of the checkout modal, and the transient messages.  The functions
  that only write markup derived from the variables (`updateCartUI`,
  `updateTotals`, `productCardHTML`, the active-button highlights) have no effect
  on `State` and are left out; page elements are taken to exist.
* A stored cart that parses to something other than an array of
  `{ id, name, price, qty }` lines is outside the typed cart; `loadCart` reports it
  as `none`.
-/

namespace ShopnarShop

/-! ## Configuration -/

/-- Constant `const CATEGORIES = ['mens','girls','baby','accessories']`. -/
def CATEGORIES : List String := ["mens", "girls", "baby", "accessories"]

/-- Constant `const SLOTS_PER_CATEGORY = 30`. -/
def SLOTS_PER_CATEGORY : Nat := 30

/-- Constant `const DELIVERY_CHARGE = 60`. -/
def DELIVERY_CHARGE : Int := 60

/-- Constant `const SITE_NAME = 'Shopnar-Shop'`. -/
def SITE_NAME : String := "Shopnar-Shop"

/-- Variable `let perPage = 18` (never assigned again by the script). -/
def perPage : Int := 18

/-! ## Data model -/

/-- A catalog entry as pushed by `generateProducts`. -/
structure Product where
  id : Int
  name : String
  price : Int
  category : String
  image : String
  desc : String
  deriving DecidableEq, Repr

/-- A cart line `{ id, name, price, qty }`. -/
structure CartItem where
  id : Int
  name : String
  price : Int
  qty : Int
  deriving DecidableEq, Repr

/-- JSON values (numbers restricted to the whole numbers the script produces). -/
inductive Json where
  | null
  | bool (b : Bool)
  | num (n : Int)
  | str (s : String)
  | arr (xs : List Json)
  | obj (kvs : List (String × Json))

/-- A text held in local storage, by what `JSON.parse` makes of it. -/
inductive Text where
  /-- The empty string (falsy; `JSON.parse` throws on it). -/
  | empty
  /-- A non-empty text on which `JSON.parse` throws. -/
  | malformed
  /-- A text that `JSON.parse` reads as the value `v`; `JSON.stringify v`. -/
  | json (v : Json)

/-- The two `localStorage` keys used by cart and checkout; `none` is an absent
key (`getItem` returns `null`). -/
structure Storage where
  shopnar_cart_v1 : Option Text
  shopnar_orders_v1 : Option Text

/-- The script's variables and the page elements it reads and writes. -/
structure State where
  /-- Variable `let products`. -/
  products : List Product
  /-- Variable `let visibleProducts`. -/
  visibleProducts : List Product
  /-- Variable `let currentCategory`. -/
  currentCategory : String
  /-- Variable `let currentPage`. -/
  currentPage : Int
  /-- Variable `let cart`. -/
  cart : List CartItem
  /-- The page's `localStorage`. -/
  storage : Storage
  /-- Value of `#searchInput`, `none` when the element is missing. -/
  searchInput : Option String
  /-- Value of `#sortSelect`, `none` when the element is missing. -/
  sortSelect : Option String
  /-- Whether `#loadMoreBtn` is displayed. -/
  loadMoreBtn : Bool
  /-- Whether `#checkoutModal` is displayed. -/
  checkoutModal : Bool
  /-- Messages passed to `showTransient`, oldest first. -/
  transients : List String

/-! ## JSON view of the cart -/

/-- Result of `JSON.stringify` on one cart line, as a JSON value. -/
def CartItem.toJson (i : CartItem) : Json :=
  .obj [("id", .num i.id), ("name", .str i.name), ("price", .num i.price), ("qty", .num i.qty)]

/-- The cart array as a JSON value. -/
def cartToJson (cart : List CartItem) : Json :=
  .arr (cart.map CartItem.toJson)

/-- Reads a JSON value as a cart line, when it has that shape. -/
def CartItem.ofJson : Json → Option CartItem
  | .obj [(k1, .num i), (k2, .str n), (k3, .num p), (k4, .num q)] =>
    if k1 = "id" ∧ k2 = "name" ∧ k3 = "price" ∧ k4 = "qty" then some ⟨i, n, p, q⟩ else none
  | _ => none

/-- Reads a list of JSON values as cart lines, when each of them is one. -/
def cartItemsOfJson : List Json → Option (List CartItem)
  | [] => some []
  | x :: xs =>
    match CartItem.ofJson x, cartItemsOfJson xs with
    | some i, some is => some (i :: is)
    | _, _ => none

/-- Reads a JSON value as a cart, when it is an array of cart lines. -/
def cartOfJson : Json → Option (List CartItem)
  | .arr xs => cartItemsOfJson xs
  | _ => none

/-! ## Cart -/

/-- Source `showTransient(msg)`: the message is put on the page. -/
def showTransient (s : State) (msg : String) : State :=
  { s with transients := s.transients ++ [msg] }

/-- Source `saveCart()`: `localStorage.setItem('shopnar_cart_v1', JSON.stringify(cart))`. -/
def saveCart (s : State) : State :=
  { s with storage := { s.storage with shopnar_cart_v1 := some (.json (cartToJson s.cart)) } }

/-- Source `loadCart()`.  A falsy stored text (absent or empty) leaves `cart` alone, a
text that does not parse resets it to `[]`, otherwise `cart` becomes the parsed
value; `none` when that value is not an array of cart lines, where the script
leaves the typed model. -/
def loadCart (s : State) : Option State :=
  match s.storage.shopnar_cart_v1 with
  | none => some s
  | some .empty => some s
  | some .malformed => some { s with cart := [] }
  | some (.json v) => (cartOfJson v).map fun c => { s with cart := c }

/-- Assignment through the reference returned by `cart.find(x => x.id === id)`:
the first line with that id gets its quantity changed by `delta`. -/
def bumpQty (id delta : Int) : List CartItem → List CartItem
  | [] => []
  | x :: xs =>
    if x.id = id then { x with qty := x.qty + delta } :: xs else x :: bumpQty id delta xs

/-- Source `addToCart(id)`. -/
def addToCart (s : State) (id : Int) : State :=
  match s.products.find? (fun x => x.id = id) with
  | none => s
  | some p =>
    let cart :=
      match s.cart.find? (fun i => i.id = id) with
      | some _ => bumpQty id 1 s.cart
      | none => s.cart ++ [{ id := p.id, name := p.name, price := p.price, qty := 1 }]
    showTransient (saveCart { s with cart := cart }) "Added to cart"

/-- Source `removeFromCart(id)`. -/
def removeFromCart (s : State) (id : Int) : State :=
  saveCart { s with cart := s.cart.filter (fun x => x.id ≠ id) }

/-- Source `changeQty(id, delta)`. -/
def changeQty (s : State) (id delta : Int) : State :=
  match s.cart.find? (fun x => x.id = id) with
  | none => s
  | some it =>
    let s1 := { s with cart := bumpQty id delta s.cart }
    let s2 := if it.qty + delta ≤ 0 then removeFromCart s1 id else s1
    saveCart s2

/-- The reduction `cart.reduce((s,i) => s + i.price * i.qty, 0)`. -/
def subtotal (cart : List CartItem) : Int :=
  cart.foldl (fun s i => s + i.price * i.qty) 0

/-! ## Strings -/

/-- White space and line terminators of ECMAScript, the characters removed by
`String.prototype.trim`. -/
def isWhiteSpace (c : Char) : Bool :=
  let n := c.toNat
  n = 0x09 || n = 0x0A || n = 0x0B || n = 0x0C || n = 0x0D || n = 0x20 || n = 0xA0 ||
  n = 0x1680 || (0x2000 ≤ n && n ≤ 0x200A) || n = 0x2028 || n = 0x2029 || n = 0x202F ||
  n = 0x205F || n = 0x3000 || n = 0xFEFF

/-- Source `s.trim()`. -/
def trim (s : String) : String :=
  ⟨((s.data.dropWhile isWhiteSpace).reverse.dropWhile isWhiteSpace).reverse⟩

/-- Source `s.includes(q)`: `q` occurs in `s` as a contiguous run of characters. -/
def includes (s q : String) : Bool :=
  decide (q.data <:+: s.data)

/-- Source `cat.charAt(0).toUpperCase() + cat.slice(1)` (the categories are ASCII words). -/
def capitalize (cat : String) : String :=
  match cat.data with
  | [] => ""
  | c :: cs => ⟨c.toUpper :: cs⟩

/-- JavaScript's relative index of `Array.prototype.slice` in an array of
length `len`: negative indices count from the end, all are clamped. -/
def relIndex (len : Nat) (k : Int) : Nat :=
  if k < 0 then (len + k).toNat else min k.toNat len

/-- Source `l.slice(start, stop)`. -/
def slice {α : Type} (l : List α) (start stop : Int) : List α :=
  let lo := relIndex l.length start
  let hi := relIndex l.length stop
  (l.drop lo).take (hi - lo)

/-! ## Catalog -/

/-- Loop state of `generateProducts`: the array built so far, the counter `id`
and the number of `Math.random()` calls made. -/
structure GenLoop where
  products : List Product
  id : Int
  calls : Nat

/-- One `products.push({...})` of the inner loop, for category `cat` and slot `i`;
`rand n` is the value of the `n`-th call of `Math.random()`. -/
def pushProduct (rand : Nat → ℚ) (cat : String) (g : GenLoop) (i : Nat) : GenLoop :=
  { products := g.products ++
      [{ id := g.id
         name := capitalize cat ++ " item " ++ toString i
         price := ⌊500 + rand g.calls * 3000⌋
         category := cat
         image := ""
         desc := "Placeholder description. Replace with real product details." }]
    id := g.id + 1
    calls := g.calls + 1 }

/-- The two nested loops of `generateProducts`, from `products = []; id = 1`. -/
def generateLoop (rand : Nat → ℚ) : GenLoop :=
  CATEGORIES.foldl
    (fun g cat => (List.range' 1 SLOTS_PER_CATEGORY).foldl (pushProduct rand cat) g)
    { products := [], id := 1, calls := 0 }

/-- Source `generateProducts()`. -/
def generateProducts (rand : Nat → ℚ) (s : State) : State :=
  { s with products := (generateLoop rand).products }

/-! ## Product grid -/

/-- Source `list.sort((a,b) => a.price - b.price)`: a stable sort by ascending price. -/
def sortPriceAsc (list : List Product) : List Product :=
  list.insertionSort (fun a b => a.price ≤ b.price)

/-- Source `list.sort((a,b) => b.price - a.price)`: a stable sort by descending price. -/
def sortPriceDesc (list : List Product) : List Product :=
  list.insertionSort (fun a b => b.price ≤ a.price)

/-- The local `list` of `renderProducts` after category filter, search filter
and sort. -/
def renderList (toLowerCase : String → String) (s : State) : List Product :=
  let list :=
    if s.currentCategory = "all" then s.products
    else s.products.filter (fun p => p.category = s.currentCategory)
  let q := toLowerCase (trim (s.searchInput.getD ""))
  let list :=
    if q ≠ "" then
      list.filter (fun p => includes (toLowerCase p.name) q || includes (toLowerCase p.desc) q)
    else list
  if s.sortSelect = some "price-asc" then sortPriceAsc list
  else if s.sortSelect = some "price-desc" then sortPriceDesc list
  else list

/-- Source `renderProducts(reset)`. -/
def renderProducts (toLowerCase : String → String) (s : State) (reset : Bool) : State :=
  let s1 := if reset then { s with currentPage := 1, visibleProducts := [] } else s
  let list := renderList toLowerCase s1
  let start := (s1.currentPage - 1) * perPage
  let nextItems := slice list start (start + perPage)
  { s1 with
    visibleProducts := s1.visibleProducts ++ nextItems
    loadMoreBtn := !decide (start + perPage ≥ list.length) }

/-- Source `loadMore()`. -/
def loadMore (toLowerCase : String → String) (s : State) : State :=
  renderProducts toLowerCase { s with currentPage := s.currentPage + 1 } false

/-- Source `showCategory(cat)`. -/
def showCategory (toLowerCase : String → String) (s : State) (cat : String) : State :=
  renderProducts toLowerCase
    { s with currentCategory := cat, visibleProducts := [], currentPage := 1 } true

/-- Source `performSearch()`. -/
def performSearch (toLowerCase : String → String) (s : State) : State :=
  renderProducts toLowerCase { s with visibleProducts := [], currentPage := 1 } true

/-- Source `applySort()`. -/
def applySort (toLowerCase : String → String) (s : State) : State :=
  renderProducts toLowerCase { s with visibleProducts := [], currentPage := 1 } true

/-! ## Checkout -/

/-- Source `closeCheckout()`. -/
def closeCheckout (s : State) : State :=
  { s with checkoutModal := false }

/-- What `submitOrder` reads from its surroundings: the form fields and the clock. -/
structure CheckoutForm where
  custName : String
  custPhone : String
  custAddress : String
  paymentMethod : String
  transactionId : String
  /-- Value of `Date.now()`. -/
  now : Nat
  /-- Value of `new Date().toISOString()`. -/
  createdAt : String

/-- The `order` object of `submitOrder`, as the JSON value it is stored as. -/
def orderJson (f : CheckoutForm) (cart : List CartItem) : Json :=
  .obj [("id", .str ("ORD" ++ toString f.now)),
        ("name", .str (trim f.custName)),
        ("phone", .str (trim f.custPhone)),
        ("address", .str (trim f.custAddress)),
        ("paymentMethod", .str f.paymentMethod),
        ("trx", .str (trim f.transactionId)),
        ("items", cartToJson cart),
        ("subtotal", .num (subtotal cart)),
        ("delivery", .num DELIVERY_CHARGE),
        ("total", .num (subtotal cart + DELIVERY_CHARGE)),
        ("createdAt", .str f.createdAt)]

/-- The value of
`try { orders = JSON.parse(localStorage.getItem('shopnar_orders_v1') || '[]') } catch(e) { orders = [] }`. -/
def parseOrders (stored : Option Text) : Json :=
  match stored with
  | none => .arr []
  | some .empty => .arr []
  | some .malformed => .arr []
  | some (.json v) => v

/-- Source `submitOrder(e)`.  `none` is the `TypeError` of `orders.push(order)` when the
stored orders parse to something that is not an array; nothing has been written
at that point. -/
def submitOrder (s : State) (f : CheckoutForm) : Option State :=
  if s.cart.length = 0 then some (showTransient s "Your cart is empty")
  else
    match parseOrders s.storage.shopnar_orders_v1 with
    | .arr orders =>
      let order := orderJson f s.cart
      let s1 := { s with storage :=
        { s.storage with shopnar_orders_v1 := some (.json (.arr (orders ++ [order]))) } }
      let s2 := closeCheckout (saveCart { s1 with cart := [] })
      some (showTransient s2
        ("Order placed. Your order id: " ++ ("ORD" ++ toString f.now) ++
          ". We will contact you soon."))
    | _ => none

/-! ## Address suggestions -/

/-- One search result of the geocoding service, with the fields the script reads. -/
structure Place where
  display_name : String
  lat : String
  lon : String
  deriving DecidableEq, Repr

/-- One rendered `<div class="item">` of the suggestion list. -/
structure SuggestionItem where
  index : Nat
  lat : String
  lon : String
  label : String
  deriving DecidableEq, Repr

/-- The list element `listEl`: its rendered items and whether it is displayed. -/
structure SuggestionList where
  items : List SuggestionItem
  shown : Bool
  deriving DecidableEq, Repr

/-- Source `escapeHtml(s)`. -/
def escapeHtml (s : String) : String :=
  ⟨s.data.flatMap fun c =>
    if c = '&' then "&amp;".data
    else if c = '<' then "&lt;".data
    else if c = '>' then "&gt;".data
    else if c = Char.ofNat 34 then "&quot;".data
    else if c = Char.ofNat 39 then "&#39;".data
    else if c = Char.ofNat 96 then "&#96;".data
    else [c]⟩

/-- Source `showSuggestions(items)`; `none` is a `null` or `undefined` argument. -/
def showSuggestions (listEl : SuggestionList) (items : Option (List Place)) : SuggestionList :=
  match items with
  | none => { listEl with shown := false }
  | some [] => { listEl with shown := false }
  | some its =>
    { items := its.enum.map fun (idx, it) =>
        { index := idx, lat := it.lat, lon := it.lon, label := escapeHtml it.display_name }
      shown := true }

/-- The query of the URL that `fetchAddressSuggestions(q)` requests:
`search?format=json&addressdetails=1&limit=5&q=...`. -/
structure SearchRequest where
  format : String
  addressdetails : Nat
  /-- The search service returns at most this many results. -/
  limit : Nat
  q : String

/-- The request built by `fetchAddressSuggestions(q)`. -/
def searchRequest (q : String) : SearchRequest :=
  { format := "json", addressdetails := 1, limit := 5, q := q }

/-- The outcome of the request `req` sent by `fetchAddressSuggestions`. -/
inductive Response (req : SearchRequest) where
  /-- Either `fetch` or `res.json()` rejects. -/
  | failed
  /-- A reply of the search service with `res.ok = ok` whose body parses to the
  array `data`; the service returns no more results than the request's `limit`. -/
  | received (ok : Bool) (data : List Place) (honoured : data.length ≤ req.limit)

/-- The value `fetchAddressSuggestions(q)` resolves to, given the outcome of its
request. -/
def fetchAddressSuggestions (q : String) (r : Response (searchRequest q)) : List Place :=
  match r with
  | .failed => []
  | .received ok data _ => if !ok then [] else data

/-- The suggestion list as `initAddressAutocomplete` creates it: empty and hidden. -/
def initialList : SuggestionList :=
  { items := [], shown := false }

/-- Six search results. -/
def sixPlaces : List Place :=
  [⟨"Dhaka, Bangladesh", "23.81", "90.41"⟩, ⟨"Dhaka Division", "23.95", "90.28"⟩,
   ⟨"Dhaka District", "23.79", "90.27"⟩, ⟨"Dhaka Cantonment", "23.83", "90.40"⟩,
   ⟨"Dhaka, Bihar, India", "26.68", "85.17"⟩, ⟨"Dhaka Road, Sylhet", "24.89", "91.87"⟩]

/-- A reply body with five search results. -/
def fivePlaces : List Place :=
  sixPlaces.take 5

/-! ## Predicates and values used in the statements -/

/-- Cart well-formedness: pairwise distinct ids and every quantity at least 1. -/
def WellFormed (cart : List CartItem) : Prop :=
  (cart.map (fun i => i.id)).Nodup ∧ ∀ i ∈ cart, 1 ≤ i.qty

instance (cart : List CartItem) : Decidable (WellFormed cart) := by
  unfold WellFormed; infer_instance

/-- The stored cart is the serialisation of the in-memory cart. -/
def Persisted (s : State) : Prop :=
  s.storage.shopnar_cart_v1 = some (.json (cartToJson s.cart))

/-- Member `k` of a JSON object. -/
def Json.field (k : String) : Json → Option Json
  | .obj kvs => kvs.lookup k
  | _ => none

/-- The filtered products in the words of the specification: the catalog products
whose category equals the selected category (every product when the category is
'all') and whose lower-cased name or description contains the trimmed lower-cased
query. -/
def specFiltered (toLowerCase : String → String) (products : List Product)
    (category query : String) : List Product :=
  products.filter fun p =>
    (category = "all" || p.category = category) &&
    (includes (toLowerCase p.name) (toLowerCase (trim query)) ||
      includes (toLowerCase p.desc) (toLowerCase (trim query)))

/-- The list `L` of the specification: the filtered products arranged by the sort
option. -/
def specList (toLowerCase : String → String) (products : List Product)
    (category query : String) (sort : Option String) : List Product :=
  if sort = some "price-asc" then sortPriceAsc (specFiltered toLowerCase products category query)
  else if sort = some "price-desc" then
    sortPriceDesc (specFiltered toLowerCase products category query)
  else specFiltered toLowerCase products category query

/-- Lower-casing of the ASCII letters, an instance of the platform function used in
the examples. -/
def asciiLower (s : String) : String :=
  ⟨s.data.map Char.toLower⟩

/-! ### A small concrete page state -/

/-- A catalog of four products. -/
def demoProducts : List Product :=
  [⟨1, "Mens item 1", 900, "mens", "", "Placeholder"⟩,
   ⟨2, "Mens item 2", 650, "mens", "", "Placeholder"⟩,
   ⟨3, "Girls item 1", 1200, "girls", "", "Placeholder"⟩,
   ⟨4, "Baby item 1", 650, "baby", "", "Placeholder"⟩]

/-- A cart with two lines. -/
def demoCart : List CartItem :=
  [⟨1, "Mens item 1", 900, 2⟩, ⟨3, "Girls item 1", 1200, 1⟩]

/-- A page state whose stored cart is the serialised cart. -/
def demoState : State :=
  { products := demoProducts
    visibleProducts := []
    currentCategory := "all"
    currentPage := 1
    cart := demoCart
    storage := { shopnar_cart_v1 := some (.json (cartToJson demoCart)), shopnar_orders_v1 := none }
    searchInput := some ""
    sortSelect := some "default"
    loadMoreBtn := false
    checkoutModal := false
    transients := [] }

/-- The page state `demoState` with an empty cart, stored as such. -/
def emptyCartState : State :=
  { demoState with
    cart := []
    storage := { shopnar_cart_v1 := some (.json (cartToJson [])),
                 shopnar_orders_v1 := some (.json (.arr [.str "earlier order"])) } }

/-- Some content of the checkout form. -/
def demoForm : CheckoutForm :=
  { custName := " Mahim ", custPhone := "01602673665", custAddress := "Dhaka",
    paymentMethod := "cod", transactionId := "", now := 1700000000000,
    createdAt := "2023-11-14T22:13:20.000Z" }

/-- The products shown after `k` calls of `loadMore()` from the state `s`. -/
def shownAfter (toLowerCase : String → String) (k : Nat) (s : State) : List Product :=
  ((loadMore toLowerCase)^[k] s).visibleProducts

/-- A catalog of forty products of category 'mens' with various prices. -/
def longProducts : List Product :=
  (List.range 40).map fun i =>
    ⟨(i : Int) + 1, "Mens item", 500 + ((i : Int) * 7 % 11), "mens", "", "Placeholder"⟩

/-- A page state over the forty-product catalog with the given sort option. -/
def longState (sort : String) : State :=
  { demoState with products := longProducts, sortSelect := some sort, searchInput := some " ITEM " }

/-! ## Lemmas on the cart -/

theorem find?_id_eq {α : Type} (f : α → Int) (id : Int) (l : List α) (it : α)
    (h : l.find? (fun x => decide (f x = id)) = some it) : f it = id := by
  have := List.find?_some h
  simpa using this

theorem find?_id_none {α : Type} (f : α → Int) (id : Int) (l : List α) :
    l.find? (fun x => decide (f x = id)) = none ↔ ∀ x ∈ l, f x ≠ id := by
  simp [List.find?_eq_none]

theorem bumpQty_length (id delta : Int) (cart : List CartItem) :
    (bumpQty id delta cart).length = cart.length := by
  induction cart with
  | nil => rfl
  | cons x xs ih => unfold bumpQty; split <;> simp [ih]

theorem bumpQty_map_id (id delta : Int) (cart : List CartItem) :
    (bumpQty id delta cart).map (fun i => i.id) = cart.map (fun i => i.id) := by
  induction cart with
  | nil => rfl
  | cons x xs ih => unfold bumpQty; split <;> simp [ih]

theorem bumpQty_of_absent (id delta : Int) (cart : List CartItem)
    (h : ∀ x ∈ cart, x.id ≠ id) : bumpQty id delta cart = cart := by
  induction cart with
  | nil => rfl
  | cons x xs ih =>
    have hx : x.id ≠ id := h x (List.mem_cons_self _ _)
    have hxs : ∀ y ∈ xs, y.id ≠ id := fun y hy => h y (List.mem_cons_of_mem _ hy)
    simp [bumpQty, hx, ih hxs]

/-- The shape of the cart around the line returned by `find`, and what the
assignment through that reference does to it. -/
theorem bumpQty_split (id delta : Int) (cart : List CartItem) (it : CartItem)
    (h : cart.find? (fun x => decide (x.id = id)) = some it) :
    ∃ pre post, cart = pre ++ it :: post ∧ (∀ x ∈ pre, x.id ≠ id) ∧
      bumpQty id delta cart = pre ++ { it with qty := it.qty + delta } :: post := by
  induction cart with
  | nil => simp at h
  | cons x xs ih =>
    by_cases hx : x.id = id
    · have hit : x = it := by simpa [List.find?, hx] using h
      subst hit
      exact ⟨[], xs, rfl, by simp, by simp [bumpQty, hx]⟩
    · have h2 : xs.find? (fun x => decide (x.id = id)) = some it := by
        simpa [List.find?, hx] using h
      obtain ⟨pre, post, e, hpre, hb⟩ := ih h2
      refine ⟨x :: pre, post, by simp [e], ?_, ?_⟩
      · intro y hy
        rcases List.mem_cons.1 hy with rfl | hy
        · exact hx
        · exact hpre y hy
      · simp [bumpQty, hx, hb]

theorem bumpQty_filter (id delta : Int) (cart : List CartItem) :
    (bumpQty id delta cart).filter (fun x => decide (x.id ≠ id)) =
      cart.filter (fun x => decide (x.id ≠ id)) := by
  induction cart with
  | nil => rfl
  | cons x xs ih =>
    by_cases hx : x.id = id
    · simp [bumpQty, hx]
    · simp only [bumpQty, hx, if_false]
      simp only [List.filter_cons, ih]

theorem bumpQty_qty (id delta : Int) (cart : List CartItem) (it : CartItem)
    (h : cart.find? (fun x => decide (x.id = id)) = some it)
    (hq : ∀ i ∈ cart, 1 ≤ i.qty) (hd : 1 ≤ it.qty + delta) :
    ∀ i ∈ bumpQty id delta cart, 1 ≤ i.qty := by
  obtain ⟨pre, post, e, -, hb⟩ := bumpQty_split id delta cart it h
  rw [hb]
  intro i hi
  rcases List.mem_append.1 hi with hi | hi
  · exact hq i (by rw [e]; exact List.mem_append_left _ hi)
  · rcases List.mem_cons.1 hi with rfl | hi
    · exact hd
    · exact hq i (by rw [e]; exact List.mem_append_right _ (List.mem_cons_of_mem _ hi))

theorem wellFormed_filter (cart : List CartItem) (h : WellFormed cart) (id : Int) :
    WellFormed (cart.filter (fun x => decide (x.id ≠ id))) := by
  refine ⟨?_, fun i hi => h.2 i (List.mem_of_mem_filter hi)⟩
  exact List.Nodup.sublist (List.Sublist.map _ (List.filter_sublist _)) h.1

@[simp] theorem saveCart_cart (s : State) : (saveCart s).cart = s.cart := rfl

@[simp] theorem showTransient_cart (s : State) (m : String) : (showTransient s m).cart = s.cart :=
  rfl

theorem addToCart_cart_found (s : State) (id : Int) (p : Product) (found : CartItem)
    (hp : s.products.find? (fun x => decide (x.id = id)) = some p)
    (hf : s.cart.find? (fun i => decide (i.id = id)) = some found) :
    (addToCart s id).cart = bumpQty id 1 s.cart := by
  simp [addToCart, hp, hf]

theorem addToCart_cart_new (s : State) (id : Int) (p : Product)
    (hp : s.products.find? (fun x => decide (x.id = id)) = some p)
    (hf : s.cart.find? (fun i => decide (i.id = id)) = none) :
    (addToCart s id).cart = s.cart ++ [{ id := p.id, name := p.name, price := p.price, qty := 1 }] := by
  simp [addToCart, hp, hf]

theorem changeQty_cart_keep (s : State) (id delta : Int) (it : CartItem)
    (hf : s.cart.find? (fun x => decide (x.id = id)) = some it) (hq : ¬ it.qty + delta ≤ 0) :
    (changeQty s id delta).cart = bumpQty id delta s.cart := by
  simp [changeQty, hf, hq]

theorem changeQty_drop (s : State) (id delta : Int) (it : CartItem)
    (hf : s.cart.find? (fun x => decide (x.id = id)) = some it) (hq : it.qty + delta ≤ 0) :
    changeQty s id delta = removeFromCart s id := by
  have hb := bumpQty_filter id delta s.cart
  simp only [changeQty, hf, hq, if_true, removeFromCart, saveCart, hb]

/-! ## Cart operations -/

/-- C2: `addToCart(id)` for an id of the catalog (`p` is the catalog product that
`find` returns for it) raises by exactly 1 the quantity of the cart line that
`find` returns for that id and leaves every other line, the order and the length
of the cart unchanged; when the cart has no line with that id it appends the line
`{id, name, price, qty: 1}` copied from `p` after the existing lines.  For an id
that no catalog product has, `addToCart(id)` changes nothing. -/
theorem addToCart_spec (s : State) (id : Int) :
    (∀ p, s.products.find? (fun x => decide (x.id = id)) = some p →
      p.id = id ∧
      (∀ found, s.cart.find? (fun i => decide (i.id = id)) = some found →
        ∃ pre post, s.cart = pre ++ found :: post ∧ (∀ x ∈ pre, x.id ≠ id) ∧
          (addToCart s id).cart = pre ++ { found with qty := found.qty + 1 } :: post ∧
          (addToCart s id).cart.length = s.cart.length) ∧
      ((∀ x ∈ s.cart, x.id ≠ id) →
        (addToCart s id).cart =
          s.cart ++ [{ id := id, name := p.name, price := p.price, qty := 1 }])) ∧
    ((∀ p ∈ s.products, p.id ≠ id) → addToCart s id = s) := by
  refine ⟨fun p hp => ⟨find?_id_eq _ id _ p hp, fun found hf => ?_, fun habs => ?_⟩, fun habs => ?_⟩
  · obtain ⟨pre, post, e, hpre, hb⟩ := bumpQty_split id 1 s.cart found hf
    refine ⟨pre, post, e, hpre, ?_, ?_⟩
    · rw [addToCart_cart_found s id p found hp hf, hb]
    · rw [addToCart_cart_found s id p found hp hf, bumpQty_length]
  · have hf := (find?_id_none (fun i : CartItem => i.id) id s.cart).2 habs
    rw [addToCart_cart_new s id p hp hf, find?_id_eq _ id _ p hp]
  · have hp := (find?_id_none (fun p : Product => p.id) id s.products).2 habs
    simp [addToCart, hp]

/-- Instances of `addToCart_spec`: id 1 is in the cart, id 2 only in the catalog,
id 9 in neither. -/
theorem addToCart_spec_witness :
    (∃ pre post, demoState.cart = pre ++ (⟨1, "Mens item 1", 900, 2⟩ : CartItem) :: post ∧
      (∀ x ∈ pre, x.id ≠ 1) ∧
      (addToCart demoState 1).cart = pre ++ ⟨1, "Mens item 1", 900, 2 + 1⟩ :: post ∧
      (addToCart demoState 1).cart.length = demoState.cart.length) ∧
    (addToCart demoState 2).cart = demoState.cart ++ [⟨2, "Mens item 2", 650, 1⟩] ∧
    addToCart demoState 9 = demoState :=
  ⟨((addToCart_spec demoState 1).1 ⟨1, "Mens item 1", 900, "mens", "", "Placeholder"⟩
      (by decide)).2.1 ⟨1, "Mens item 1", 900, 2⟩ (by decide),
   ((addToCart_spec demoState 2).1 ⟨2, "Mens item 2", 650, "mens", "", "Placeholder"⟩
      (by decide)).2.2 (by decide),
   (addToCart_spec demoState 9).2 (by decide)⟩

/-- C10: `changeQty(id, delta)` acts on the line `it` that `find` returns for the
id (the first with that id), of quantity `q`: when `q + delta >= 1` the cart keeps
its lines in their order and only that line's quantity becomes `q + delta`; when
`q + delta <= 0` the outcome is that of `removeFromCart(id)` on the original cart,
so no line with that id is left and the lines with another id are as before; when
no line has the id nothing changes. -/
theorem changeQty_spec (s : State) (id delta : Int) :
    (∀ it, s.cart.find? (fun x => decide (x.id = id)) = some it →
      (1 ≤ it.qty + delta →
        ∃ pre post, s.cart = pre ++ it :: post ∧ (∀ x ∈ pre, x.id ≠ id) ∧
          (changeQty s id delta).cart = pre ++ { it with qty := it.qty + delta } :: post) ∧
      (it.qty + delta ≤ 0 →
        changeQty s id delta = removeFromCart s id ∧
        (changeQty s id delta).cart = s.cart.filter (fun x => decide (x.id ≠ id)))) ∧
    ((∀ x ∈ s.cart, x.id ≠ id) → changeQty s id delta = s) := by
  refine ⟨fun it hf => ⟨fun hq => ?_, fun hq => ?_⟩, fun habs => ?_⟩
  · obtain ⟨pre, post, e, hpre, hb⟩ := bumpQty_split id delta s.cart it hf
    exact ⟨pre, post, e, hpre, by rw [changeQty_cart_keep s id delta it hf (by omega), hb]⟩
  · have h := changeQty_drop s id delta it hf hq
    exact ⟨h, by rw [h]; rfl⟩
  · have hf := (find?_id_none (fun i : CartItem => i.id) id s.cart).2 habs
    simp [changeQty, hf]

/-- Instances of `changeQty_spec` on the two-line cart: one unit less of line 1,
five units less of line 1, and an id without a line. -/
theorem changeQty_spec_witness :
    (∃ pre post, demoState.cart = pre ++ (⟨1, "Mens item 1", 900, 2⟩ : CartItem) :: post ∧
      (∀ x ∈ pre, x.id ≠ 1) ∧
      (changeQty demoState 1 (-1)).cart = pre ++ ⟨1, "Mens item 1", 900, 2 + -1⟩ :: post) ∧
    (changeQty demoState 1 (-5) = removeFromCart demoState 1 ∧
      (changeQty demoState 1 (-5)).cart = demoState.cart.filter (fun x => decide (x.id ≠ 1))) ∧
    changeQty demoState 7 3 = demoState :=
  ⟨((changeQty_spec demoState 1 (-1)).1 ⟨1, "Mens item 1", 900, 2⟩ (by decide)).1 (by decide),
   ((changeQty_spec demoState 1 (-5)).1 ⟨1, "Mens item 1", 900, 2⟩ (by decide)).2 (by decide),
   (changeQty_spec demoState 7 3).2 (by decide)⟩

/-- C9: a cart whose lines have pairwise distinct ids and quantities of at least 1
is again such a cart after `addToCart(id)`, after `changeQty(id, delta)` and after
`removeFromCart(id)`, for every id and every whole number `delta`. -/
theorem wellFormed_preserved (s : State) (h : WellFormed s.cart) (id delta : Int) :
    WellFormed (addToCart s id).cart ∧ WellFormed (changeQty s id delta).cart ∧
      WellFormed (removeFromCart s id).cart := by
  refine ⟨?_, ?_, ?_⟩
  · cases hp : s.products.find? (fun x => decide (x.id = id)) with
    | none => simpa [addToCart, hp] using h
    | some p =>
      cases hf : s.cart.find? (fun i => decide (i.id = id)) with
      | some found =>
        rw [addToCart_cart_found s id p found hp hf]
        refine ⟨by rw [bumpQty_map_id]; exact h.1, ?_⟩
        exact bumpQty_qty id 1 s.cart found hf h.2 (by have := h.2 found (List.mem_of_find?_eq_some hf); omega)
      | none =>
        rw [addToCart_cart_new s id p hp hf]
        have habs := (find?_id_none (fun i : CartItem => i.id) id s.cart).1 hf
        have hpid := find?_id_eq _ id _ p hp
        refine ⟨?_, ?_⟩
        · rw [List.map_append, List.nodup_append]
          refine ⟨h.1, by simp, ?_⟩
          intro a ha hb
          simp only [List.map_cons, List.map_nil, List.mem_singleton] at hb
          obtain ⟨x, hx, rfl⟩ := List.mem_map.1 ha
          exact habs x hx (hb.trans hpid)
        · intro i hi
          rcases List.mem_append.1 hi with hi | hi
          · exact h.2 i hi
          · simp only [List.mem_singleton] at hi
            subst hi
            exact le_refl _
  · cases hf : s.cart.find? (fun x => decide (x.id = id)) with
    | none => simpa [changeQty, hf] using h
    | some it =>
      by_cases hq : it.qty + delta ≤ 0
      · rw [changeQty_drop s id delta it hf hq]
        exact wellFormed_filter s.cart h id
      · rw [changeQty_cart_keep s id delta it hf hq]
        exact ⟨by rw [bumpQty_map_id]; exact h.1,
          bumpQty_qty id delta s.cart it hf h.2 (by omega)⟩
  · exact wellFormed_filter s.cart h id

/-- Instance of `wellFormed_preserved`: the two-line cart, id 1 and `delta = -5`. -/
theorem wellFormed_preserved_witness :
    WellFormed demoState.cart ∧
      WellFormed (addToCart demoState 1).cart ∧ WellFormed (changeQty demoState 1 (-5)).cart ∧
      WellFormed (removeFromCart demoState 1).cart :=
  ⟨by decide, wellFormed_preserved demoState (by decide) 1 (-5)⟩

/-! ## Checkout and persistence -/

theorem subtotal_foldl (cart : List CartItem) (a : Int) :
    cart.foldl (fun s i => s + i.price * i.qty) a =
      a + (cart.map (fun i => i.price * i.qty)).sum := by
  induction cart generalizing a with
  | nil => simp
  | cons x xs ih => simp [List.foldl, ih, add_assoc]

theorem subtotal_eq_sum (cart : List CartItem) :
    subtotal cart = (cart.map (fun i => i.price * i.qty)).sum := by
  simp [subtotal, subtotal_foldl]

theorem CartItem.ofJson_toJson (i : CartItem) : CartItem.ofJson i.toJson = some i := by
  simp [CartItem.ofJson, CartItem.toJson]

theorem cartOfJson_cartToJson (cart : List CartItem) : cartOfJson (cartToJson cart) = some cart := by
  simp only [cartOfJson, cartToJson]
  induction cart with
  | nil => rfl
  | cons x xs ih => simp [cartItemsOfJson, CartItem.ofJson_toJson, ih]

theorem persisted_saveCart (s : State) : Persisted (saveCart s) := rfl

theorem loadCart_of_stored (u : State) (cart : List CartItem)
    (h : u.storage.shopnar_cart_v1 = some (.json (cartToJson cart))) :
    loadCart u = some { u with cart := cart } := by
  simp [loadCart, h, cartOfJson_cartToJson]

theorem submitOrder_of_empty (s : State) (f : CheckoutForm) (h : s.cart = []) :
    submitOrder s f = some (showTransient s "Your cart is empty") := by
  simp [submitOrder, h]

theorem submitOrder_of_array (s : State) (f : CheckoutForm) (orders : List Json)
    (hc : s.cart ≠ []) (ho : parseOrders s.storage.shopnar_orders_v1 = .arr orders) :
    submitOrder s f = some (showTransient (closeCheckout (saveCart
      { s with
        storage := { s.storage with
          shopnar_orders_v1 := some (.json (.arr (orders ++ [orderJson f s.cart]))) }
        cart := [] }))
      ("Order placed. Your order id: " ++ ("ORD" ++ toString f.now) ++
        ". We will contact you soon.")) := by
  have hl : s.cart.length ≠ 0 := by simpa using hc
  simp only [submitOrder, hl, if_false, ho]

/-- C1: with a cart that is not empty and stored orders that parse as the list
`earlier` (or are absent, `earlier` then being empty), `submitOrder` returns and the
stored orders become `earlier` followed by exactly one new record; the record's
items are the cart's items, its subtotal is the sum of `price * qty` over the cart,
its delivery is 60 and its total is the subtotal plus 60; the in-memory cart is
empty afterwards. -/
theorem submitOrder_appends_order (s : State) (f : CheckoutForm) (earlier : List Json)
    (hcart : s.cart ≠ [])
    (hstored : s.storage.shopnar_orders_v1 = some (.json (.arr earlier)) ∨
      (s.storage.shopnar_orders_v1 = none ∧ earlier = [])) :
    ∃ s' order, submitOrder s f = some s' ∧
      s'.storage.shopnar_orders_v1 = some (.json (.arr (earlier ++ [order]))) ∧
      order.field "items" = some (cartToJson s.cart) ∧
      order.field "subtotal" = some (.num (s.cart.map (fun i => i.price * i.qty)).sum) ∧
      order.field "delivery" = some (.num 60) ∧
      order.field "total" = some (.num ((s.cart.map (fun i => i.price * i.qty)).sum + 60)) ∧
      s'.cart = [] := by
  have ho : parseOrders s.storage.shopnar_orders_v1 = .arr earlier := by
    rcases hstored with h | ⟨h, rfl⟩ <;> simp [parseOrders, h]
  refine ⟨_, orderJson f s.cart, submitOrder_of_array s f earlier hcart ho, rfl, ?_, ?_, ?_, ?_, rfl⟩
  · simp [Json.field, orderJson, List.lookup]
  · simp [Json.field, orderJson, List.lookup, subtotal_eq_sum]
  · simp [Json.field, orderJson, List.lookup, DELIVERY_CHARGE]
  · simp [Json.field, orderJson, List.lookup, subtotal_eq_sum, DELIVERY_CHARGE]

/-- Instance of `submitOrder_appends_order`: the two-line cart, no stored orders. -/
theorem submitOrder_appends_order_witness :
    demoState.cart ≠ [] ∧
    ∃ s' order, submitOrder demoState demoForm = some s' ∧
      s'.storage.shopnar_orders_v1 = some (.json (.arr ([] ++ [order]))) ∧
      order.field "items" = some (cartToJson demoState.cart) ∧
      order.field "subtotal" =
        some (.num (demoState.cart.map (fun i => i.price * i.qty)).sum) ∧
      order.field "delivery" = some (.num 60) ∧
      order.field "total" =
        some (.num ((demoState.cart.map (fun i => i.price * i.qty)).sum + 60)) ∧
      s'.cart = [] :=
  ⟨by decide, submitOrder_appends_order demoState demoForm [] (by decide) (Or.inr ⟨rfl, rfl⟩)⟩

/-- C4: with an empty cart `submitOrder` returns having written nothing: local
storage (orders and cart) and the in-memory cart are as before, and the only
change of the page state is the message "Your cart is empty"; this holds for
every content of the form. -/
theorem submitOrder_empty_cart (s : State) (f : CheckoutForm) (h : s.cart = []) :
    ∃ s', submitOrder s f = some s' ∧ s'.storage = s.storage ∧ s'.cart = s.cart ∧
      s' = { s with transients := s.transients ++ ["Your cart is empty"] } :=
  ⟨_, submitOrder_of_empty s f h, rfl, rfl, rfl⟩

/-- Instance of `submitOrder_empty_cart`: an empty cart and one stored order. -/
theorem submitOrder_empty_cart_witness :
    emptyCartState.cart = [] ∧
    ∃ s', submitOrder emptyCartState demoForm = some s' ∧
      s'.storage = emptyCartState.storage ∧ s'.cart = emptyCartState.cart ∧
      s' = { emptyCartState with
        transients := emptyCartState.transients ++ ["Your cart is empty"] } :=
  ⟨rfl, submitOrder_empty_cart emptyCartState demoForm rfl⟩

/-- C3: from a state whose stored cart is the serialisation of the in-memory cart,
every state `t` that `addToCart`, `changeQty`, `removeFromCart` or `submitOrder`
returns (for every argument) again has the serialisation of its cart stored, so
that `loadCart` on `t`, or on any state with the same local storage (the page
after a reload), yields exactly the cart of `t`.  `submitOrder` does return unless
the cart is not empty and the stored orders parse to something that is not a list. -/
theorem persisted_preserved (s : State) (h : Persisted s) (id delta : Int) (f : CheckoutForm) :
    (∀ t, (t = addToCart s id ∨ t = changeQty s id delta ∨ t = removeFromCart s id ∨
        submitOrder s f = some t) →
      Persisted t ∧ loadCart t = some t ∧
      ∀ u : State, u.storage = t.storage → (loadCart u).map (fun r => r.cart) = some t.cart) ∧
    ((s.cart = [] ∨ ∃ orders, parseOrders s.storage.shopnar_orders_v1 = .arr orders) →
      ∃ t, submitOrder s f = some t) := by
  have key : ∀ t, Persisted t → Persisted t ∧ loadCart t = some t ∧
      ∀ u : State, u.storage = t.storage →
        (loadCart u).map (fun r => r.cart) = some t.cart := by
    intro t ht
    refine ⟨ht, by rw [loadCart_of_stored t t.cart ht], fun u hu => ?_⟩
    rw [loadCart_of_stored u t.cart (by rw [hu]; exact ht)]
    rfl
  refine ⟨fun t ht => key t ?_, fun hret => ?_⟩
  · rcases ht with rfl | rfl | rfl | ht
    · cases hp : s.products.find? (fun x => decide (x.id = id)) with
      | none => simpa [addToCart, hp] using h
      | some p => simp only [addToCart, hp]; exact persisted_saveCart _
    · cases hf : s.cart.find? (fun x => decide (x.id = id)) with
      | none => simpa [changeQty, hf] using h
      | some it => simp only [changeQty, hf]; exact persisted_saveCart _
    · exact persisted_saveCart _
    · by_cases hc : s.cart = []
      · rw [submitOrder_of_empty s f hc] at ht
        cases ht
        exact h
      · cases ho : parseOrders s.storage.shopnar_orders_v1 with
        | arr orders =>
          rw [submitOrder_of_array s f orders hc ho] at ht
          cases ht
          exact persisted_saveCart _
        | _ =>
          have hl : s.cart.length ≠ 0 := by simpa using hc
          simp [submitOrder, hl, ho] at ht
  · by_cases hc : s.cart = []
    · exact ⟨_, submitOrder_of_empty s f hc⟩
    · rcases hret with hc2 | ⟨orders, ho⟩
      · exact absurd hc2 hc
      · exact ⟨_, submitOrder_of_array s f orders hc ho⟩

/-- Instance of `persisted_preserved`: the two-line cart with its serialisation
stored; the state after `changeQty(1, -5)` reloads to the one-line cart. -/
theorem persisted_preserved_witness :
    Persisted demoState ∧
    (Persisted (changeQty demoState 1 (-5)) ∧
      loadCart (changeQty demoState 1 (-5)) = some (changeQty demoState 1 (-5)) ∧
      ∀ u : State, u.storage = (changeQty demoState 1 (-5)).storage →
        (loadCart u).map (fun r => r.cart) = some (changeQty demoState 1 (-5)).cart) ∧
    ∃ t, submitOrder demoState demoForm = some t :=
  ⟨rfl, (persisted_preserved demoState rfl 1 (-5) demoForm).1 _ (Or.inr (Or.inl rfl)),
    (persisted_preserved demoState rfl 1 (-5) demoForm).2 (Or.inr ⟨[], rfl⟩)⟩

/-! ## Catalog generation -/

/-- What the inner loop of `generateProducts` adds for one category. -/
theorem inner_loop (rand : Nat → ℚ) (cat : String) (is : List Nat) (g : GenLoop) :
    ((is.foldl (pushProduct rand cat) g).products.map (fun p => (p.id, p.category)) =
      g.products.map (fun p => (p.id, p.category)) ++
        (List.range is.length).map (fun k : Nat => (g.id + (k : Int), cat))) ∧
    (is.foldl (pushProduct rand cat) g).id = g.id + is.length := by
  induction is generalizing g with
  | nil => simp
  | cons i is ih =>
    obtain ⟨h1, h2⟩ := ih (pushProduct rand cat g i)
    rw [List.foldl_cons, h1, h2]
    constructor
    · simp only [pushProduct, List.map_append, List.map_cons, List.map_nil, List.length_cons,
        List.range_succ_eq_map, List.append_assoc, List.singleton_append, List.map_map]
      congr 2
      · simp
      · apply List.map_congr_left
        intro k _
        simp only [Function.comp, Nat.cast_succ]
        congr 1
        ring
    · simp only [pushProduct, List.length_cons, Nat.cast_succ]
      ring

theorem generateLoop_view (rand : Nat → ℚ) :
    (generateLoop rand).products.map (fun p => (p.id, p.category)) =
      (List.range 30).map (fun k : Nat => ((1 : Int) + (k : Int), "mens")) ++
      ((List.range 30).map (fun k : Nat => ((31 : Int) + (k : Int), "girls")) ++
      ((List.range 30).map (fun k : Nat => ((61 : Int) + (k : Int), "baby")) ++
      (List.range 30).map (fun k : Nat => ((91 : Int) + (k : Int), "accessories")))) := by
  simp only [generateLoop, CATEGORIES, List.foldl_cons, List.foldl_nil]
  simp only [inner_loop, List.map_nil, List.nil_append, List.length_range', SLOTS_PER_CATEGORY,
    List.append_assoc]
  norm_num

/-- C5: for every sequence of random values `generateProducts` yields exactly 120
products, with ids exactly 1, 2, ..., 120 in list order (hence pairwise distinct),
the first 30 of category 'mens', the next 30 'girls', then 30 'baby', then 30
'accessories', so exactly 30 for each of the four categories; the catalog produced
does not depend on the state (and so not on the earlier catalog) it starts from. -/
theorem generateProducts_catalog (rand : Nat → ℚ) (s : State) :
    (generateProducts rand s).products.length = 120 ∧
    (generateProducts rand s).products.map (fun p => p.id) =
      (List.range' 1 120).map (fun n : Nat => (n : Int)) ∧
    (generateProducts rand s).products.map (fun p => p.category) =
      List.replicate 30 "mens" ++ List.replicate 30 "girls" ++ List.replicate 30 "baby" ++
        List.replicate 30 "accessories" ∧
    (∀ c ∈ CATEGORIES,
      ((generateProducts rand s).products.filter (fun p => decide (p.category = c))).length = 30) ∧
    ((generateProducts rand s).products.map (fun p => p.id)).Nodup ∧
    ∀ s0 : State, (generateProducts rand s0).products = (generateProducts rand s).products := by
  have hv := generateLoop_view rand
  have hid : (generateLoop rand).products.map (fun p => p.id) =
      (List.range' 1 120).map (fun n : Nat => (n : Int)) := by
    have h := congrArg (List.map Prod.fst) hv
    simp only [List.map_map, List.map_append] at h
    exact h.trans (by decide)
  have hcat : (generateLoop rand).products.map (fun p => p.category) =
      List.replicate 30 "mens" ++ List.replicate 30 "girls" ++ List.replicate 30 "baby" ++
        List.replicate 30 "accessories" := by
    have h := congrArg (List.map Prod.snd) hv
    simp only [List.map_map, List.map_append] at h
    exact h.trans (by decide)
  have hlen : (generateLoop rand).products.length = 120 := by
    have h := congrArg List.length hid
    simpa using h
  have hgp : (generateProducts rand s).products = (generateLoop rand).products := rfl
  rw [hgp]
  refine ⟨hlen, hid, hcat, ?_, ?_, fun _ => rfl⟩
  · intro c hc
    have hcount : ((generateLoop rand).products.filter (fun p => decide (p.category = c))).length =
        ((generateLoop rand).products.map (fun p => p.category)).count c := by
      rw [List.count, List.countP_map, List.countP_eq_length_filter]
      congr 2
    rw [hcount, hcat]
    simp only [CATEGORIES, List.mem_cons, List.mem_singleton, List.not_mem_nil, or_false] at hc
    rw [List.count_append, List.count_append, List.count_append, List.count_replicate,
      List.count_replicate, List.count_replicate, List.count_replicate]
    rcases hc with rfl | rfl | rfl | rfl <;> simp
  · rw [hid]
    exact (List.nodup_range' 1 120).map Nat.cast_injective

theorem includes_empty (s : String) : includes s "" = true := by
  simp [includes]

theorem renderList_eq_specList (toLowerCase : String → String) (s : State) :
    renderList toLowerCase s =
      specList toLowerCase s.products s.currentCategory (s.searchInput.getD "") s.sortSelect := by
  have hf : (if toLowerCase (trim (s.searchInput.getD "")) ≠ "" then
        (if s.currentCategory = "all" then s.products
          else s.products.filter (fun p => decide (p.category = s.currentCategory))).filter
          (fun p => includes (toLowerCase p.name) (toLowerCase (trim (s.searchInput.getD ""))) ||
            includes (toLowerCase p.desc) (toLowerCase (trim (s.searchInput.getD ""))))
      else (if s.currentCategory = "all" then s.products
          else s.products.filter (fun p => decide (p.category = s.currentCategory)))) =
      specFiltered toLowerCase s.products s.currentCategory (s.searchInput.getD "") := by
    unfold specFiltered
    by_cases hq : toLowerCase (trim (s.searchInput.getD "")) = ""
    · by_cases hc : s.currentCategory = "all"
      · simp [hq, hc, includes_empty]
      · simp [hq, hc, includes_empty]
    · by_cases hc : s.currentCategory = "all"
      · simp [hq, hc]
      · simp [hq, hc, List.filter_filter, Bool.and_comm]
  unfold renderList specList
  simp only [hf]

theorem slice_nat {α : Type} (l : List α) (n : Nat) :
    slice l (n : Int) ((n : Int) + perPage) = (l.drop n).take 18 := by
  have h1 : relIndex l.length (n : Int) = min n l.length := by
    simp [relIndex]
  have h2 : relIndex l.length ((n : Int) + perPage) = min (n + 18) l.length := by
    have : ((n : Int) + perPage) = ((n + 18 : Nat) : Int) := by simp [perPage]
    rw [this]
    simp only [relIndex, Int.toNat_ofNat]
    rw [if_neg (by omega)]
  simp only [slice, h1, h2]
  by_cases hn : n ≤ l.length
  · rw [Nat.min_eq_left hn]
    by_cases hm : n + 18 ≤ l.length
    · rw [Nat.min_eq_left hm]; congr 1; omega
    · rw [Nat.min_eq_right (by omega)]
      rw [List.take_of_length_le (by simp), List.take_of_length_le (by simp; omega)]
  · have hd : l.drop n = [] := List.drop_of_length_le (by omega)
    have hd2 : l.drop (min n l.length) = [] := List.drop_of_length_le (by omega)
    rw [hd, hd2]; simp

theorem take_min_length {α : Type} (l : List α) (a : Nat) :
    l.take (min a l.length) = l.take a := by
  by_cases h : a ≤ l.length
  · rw [Nat.min_eq_left h]
  · rw [Nat.min_eq_right (by omega), List.take_of_length_le (le_refl _),
      List.take_of_length_le (by omega)]

/-- The function `renderList` reads the catalog, the category and the two inputs only. -/
theorem renderList_congr (toLowerCase : String → String) (s t : State)
    (h1 : t.products = s.products) (h2 : t.currentCategory = s.currentCategory)
    (h3 : t.searchInput = s.searchInput) (h4 : t.sortSelect = s.sortSelect) :
    renderList toLowerCase t = renderList toLowerCase s := by
  simp only [renderList, h1, h2, h3, h4]

/-- The first page: `renderProducts(true)`. -/
theorem renderProducts_reset (toLowerCase : String → String) (s : State) :
    (renderProducts toLowerCase s true).visibleProducts = (renderList toLowerCase s).take 18 ∧
    (renderProducts toLowerCase s true).currentPage = 1 ∧
    renderList toLowerCase (renderProducts toLowerCase s true) = renderList toLowerCase s := by
  have hl : renderList toLowerCase { s with currentPage := 1, visibleProducts := [] } =
      renderList toLowerCase s := renderList_congr _ _ _ rfl rfl rfl rfl
  refine ⟨?_, rfl, ?_⟩
  · have h := slice_nat (renderList toLowerCase s) 0
    simp only [renderProducts, if_true, hl, List.nil_append]
    simpa using h
  · exact (renderList_congr _ _ _ rfl rfl rfl rfl).trans hl

/-- One `loadMore()` from page `j + 1` with the first `(j + 1) * 18` entries shown. -/
theorem loadMore_step (toLowerCase : String → String) (s : State) (j : Nat)
    (hp : s.currentPage = (j : Int) + 1)
    (hv : s.visibleProducts = (renderList toLowerCase s).take ((j + 1) * 18)) :
    (loadMore toLowerCase s).visibleProducts = (renderList toLowerCase s).take ((j + 2) * 18) ∧
    (loadMore toLowerCase s).currentPage = ((j + 1 : Nat) : Int) + 1 ∧
    renderList toLowerCase (loadMore toLowerCase s) = renderList toLowerCase s := by
  have hl : renderList toLowerCase { s with currentPage := s.currentPage + 1 } =
      renderList toLowerCase s := renderList_congr _ _ _ rfl rfl rfl rfl
  refine ⟨?_, ?_, ?_⟩
  · have h := slice_nat (renderList toLowerCase s) ((j + 1) * 18)
    have hstart : (s.currentPage + 1 - 1) * perPage = (((j + 1) * 18 : Nat) : Int) := by
      rw [hp]; simp [perPage]
    have e : (loadMore toLowerCase s).visibleProducts = s.visibleProducts ++
        slice (renderList toLowerCase s) ((s.currentPage + 1 - 1) * perPage)
          ((s.currentPage + 1 - 1) * perPage + perPage) := by
      simp only [loadMore, renderProducts, Bool.false_eq_true, if_false, hl]
    rw [e, hstart, h, hv, ← List.take_add]
    congr 1
    ring
  · simp only [loadMore, renderProducts, Bool.false_eq_true, if_false, hp]
    push_cast
    ring
  · exact (renderList_congr _ _ _ rfl rfl rfl rfl).trans hl

/-- After `k` calls of `loadMore()` from a first page. -/
theorem loadMore_iterate (toLowerCase : String → String) (s : State)
    (hp : s.currentPage = 1)
    (hv : s.visibleProducts = (renderList toLowerCase s).take 18) (k : Nat) :
    ((loadMore toLowerCase)^[k] s).visibleProducts =
      (renderList toLowerCase s).take ((k + 1) * 18) ∧
    ((loadMore toLowerCase)^[k] s).currentPage = (k : Int) + 1 ∧
    renderList toLowerCase ((loadMore toLowerCase)^[k] s) = renderList toLowerCase s := by
  induction k with
  | zero => exact ⟨by simpa using hv, by simpa using hp, rfl⟩
  | succ k ih =>
    obtain ⟨h1, h2, h3⟩ := ih
    rw [Function.iterate_succ_apply']
    obtain ⟨g1, g2, g3⟩ := loadMore_step toLowerCase _ k h2 (by rw [h3]; exact h1)
    exact ⟨by rw [g1, h3], g2, by rw [g3, h3]⟩

/-- The pages shown after a reset render followed by `k` calls of `loadMore()`. -/
theorem pages_after_reset (toLowerCase : String → String) (s : State) (k : Nat) :
    ((loadMore toLowerCase)^[k] (renderProducts toLowerCase s true)).visibleProducts =
      (specList toLowerCase s.products s.currentCategory (s.searchInput.getD "")
        s.sortSelect).take ((k + 1) * 18) := by
  obtain ⟨h1, h2, h3⟩ := renderProducts_reset toLowerCase s
  obtain ⟨g1, -, -⟩ := loadMore_iterate toLowerCase _ h2 (by rw [h3]; exact h1) k
  rw [g1, h3, renderList_eq_specList]

theorem specFiltered_sublist (toLowerCase : String → String) (products : List Product)
    (category query : String) :
    (specFiltered toLowerCase products category query).Sublist products :=
  List.filter_sublist _

theorem specList_perm (toLowerCase : String → String) (products : List Product)
    (category query : String) (sort : Option String) :
    (specList toLowerCase products category query sort).Perm
      (specFiltered toLowerCase products category query) := by
  unfold specList
  split
  · exact List.perm_insertionSort _ _
  · split
    · exact List.perm_insertionSort _ _
    · exact List.Perm.refl _

/-- C6: with catalog, category, query and sort option held fixed, after
`showCategory(cat)` (or `performSearch()` or `applySort()`, the category then being
the current one) followed by `k` calls of `loadMore()`, for every `k`, the shown
products are the first `min((k+1) * 18, n)` elements of `L`, the list of length `n`
of the catalog products of the selected category (all of them for 'all') whose
lower-cased name or description contains the trimmed lower-cased query, arranged
by the sort option.  Being a prefix of `L` nothing is skipped; no product is shown
more often than the catalog has it, so with pairwise distinct ids in the catalog
no product appears twice. -/
theorem pagination_prefix (toLowerCase : String → String) (s : State) (cat : String) (k : Nat) :
    ∀ s0 L,
      (s0 = showCategory toLowerCase s cat ∧
          L = specList toLowerCase s.products cat (s.searchInput.getD "") s.sortSelect) ∨
        ((s0 = performSearch toLowerCase s ∨ s0 = applySort toLowerCase s) ∧
          L = specList toLowerCase s.products s.currentCategory (s.searchInput.getD "")
            s.sortSelect) →
      shownAfter toLowerCase k s0 = L.take (min ((k + 1) * 18) L.length) ∧
      shownAfter toLowerCase k s0 <+: L ∧
      (shownAfter toLowerCase k s0).Subperm s.products ∧
      ((s.products.map (fun p => p.id)).Nodup →
        ((shownAfter toLowerCase k s0).map (fun p => p.id)).Nodup) := by
  intro s0 L h
  have hV : shownAfter toLowerCase k s0 = L.take ((k + 1) * 18) := by
    rcases h with ⟨rfl, rfl⟩ | ⟨rfl | rfl, rfl⟩
    · exact pages_after_reset toLowerCase
        { s with currentCategory := cat, visibleProducts := [], currentPage := 1 } k
    · exact pages_after_reset toLowerCase { s with visibleProducts := [], currentPage := 1 } k
    · exact pages_after_reset toLowerCase { s with visibleProducts := [], currentPage := 1 } k
  have hL : L.Subperm s.products := by
    rcases h with ⟨-, rfl⟩ | ⟨-, rfl⟩
    · exact (specList_perm _ _ _ _ _).subperm.trans (specFiltered_sublist _ _ _ _).subperm
    · exact (specList_perm _ _ _ _ _).subperm.trans (specFiltered_sublist _ _ _ _).subperm
  have hsub : (shownAfter toLowerCase k s0).Subperm s.products := by
    rw [hV]
    exact (List.take_sublist _ _).subperm.trans hL
  refine ⟨by rw [hV, take_min_length], by rw [hV]; exact List.take_prefix _ _, hsub, fun hnd => ?_⟩
  obtain ⟨l, hp, hs⟩ := hsub
  exact ((hp.map (fun p => p.id)).nodup_iff).1 (List.Nodup.sublist (hs.map _) hnd)

set_option maxRecDepth 100000 in
/-- Instance of `pagination_prefix`: forty products sorted by ascending price, the
query " ITEM ", category 'mens' and one `loadMore()`: 36 products are shown. -/
theorem pagination_prefix_witness :
    (longProducts.map (fun p => p.id)).Nodup ∧
    (shownAfter asciiLower 1 (showCategory asciiLower (longState "price-asc") "mens")).map
        (fun p => p.id) =
      [1, 12, 23, 34, 9, 20, 31, 6, 17, 28, 39, 3, 14, 25, 36, 11, 22, 33, 8, 19, 30, 5, 16, 27,
        38, 2, 13, 24, 35, 10, 21, 32, 7, 18, 29, 40] ∧
    (shownAfter asciiLower 1 (showCategory asciiLower (longState "price-asc") "mens") =
      (specList asciiLower longProducts "mens" " ITEM " (some "price-asc")).take
        (min ((1 + 1) * 18)
          (specList asciiLower longProducts "mens" " ITEM " (some "price-asc")).length) ∧
    shownAfter asciiLower 1 (showCategory asciiLower (longState "price-asc") "mens") <+:
      specList asciiLower longProducts "mens" " ITEM " (some "price-asc") ∧
    (shownAfter asciiLower 1 (showCategory asciiLower (longState "price-asc") "mens")).Subperm
      longProducts ∧
    ((longProducts.map (fun p => p.id)).Nodup →
      ((shownAfter asciiLower 1 (showCategory asciiLower (longState "price-asc") "mens")).map
        (fun p => p.id)).Nodup)) :=
  ⟨by decide, by decide,
    pagination_prefix asciiLower (longState "price-asc") "mens" 1 _ _ (Or.inl ⟨rfl, rfl⟩)⟩

theorem specList_sorted_asc (toLowerCase : String → String) (products : List Product)
    (category query : String) :
    (specList toLowerCase products category query (some "price-asc")).Sorted
      (fun a b => a.price ≤ b.price) := by
  haveI : IsTotal Product (fun a b => a.price ≤ b.price) := ⟨fun a b => le_total a.price b.price⟩
  haveI : IsTrans Product (fun a b => a.price ≤ b.price) := ⟨fun _ _ _ h1 h2 => le_trans h1 h2⟩
  simp only [specList, if_true]
  exact List.sorted_insertionSort _ _

theorem specList_sorted_desc (toLowerCase : String → String) (products : List Product)
    (category query : String) :
    (specList toLowerCase products category query (some "price-desc")).Sorted
      (fun a b => b.price ≤ a.price) := by
  haveI : IsTotal Product (fun a b => b.price ≤ a.price) := ⟨fun a b => le_total b.price a.price⟩
  haveI : IsTrans Product (fun a b => b.price ≤ a.price) := ⟨fun _ _ _ h1 h2 => le_trans h2 h1⟩
  have hne : (some "price-desc" : Option String) ≠ some "price-asc" := by decide
  simp only [specList, hne, if_false, if_true]
  exact List.sorted_insertionSort _ _

theorem specList_default (toLowerCase : String → String) (products : List Product)
    (category query : String) (sort : Option String)
    (h1 : sort ≠ some "price-asc") (h2 : sort ≠ some "price-desc") :
    specList toLowerCase products category query sort =
      specFiltered toLowerCase products category query := by
  simp only [specList, h1, h2, if_false]

/-- C8: after `showCategory(cat)` and `k` calls of `loadMore()`, for every `k`: with
the sort option 'price-asc' the shown products are in non-decreasing price order,
with 'price-desc' in non-increasing price order, and in both cases they are a
permutation of the filtered products once every page is loaded (the filtered list
has at most `(k+1) * 18` entries); with any other sort option they are the first
`(k+1) * 18` filtered products in catalog order, which is increasing id when the
catalog is in increasing id order (as the generated catalog is). -/
theorem price_sort_order (toLowerCase : String → String) (s : State) (cat : String) (k : Nat) :
    (s.sortSelect = some "price-asc" →
      (shownAfter toLowerCase k (showCategory toLowerCase s cat)).Sorted
        (fun a b => a.price ≤ b.price) ∧
      ((specFiltered toLowerCase s.products cat (s.searchInput.getD "")).length ≤ (k + 1) * 18 →
        (shownAfter toLowerCase k (showCategory toLowerCase s cat)).Perm
          (specFiltered toLowerCase s.products cat (s.searchInput.getD "")))) ∧
    (s.sortSelect = some "price-desc" →
      (shownAfter toLowerCase k (showCategory toLowerCase s cat)).Sorted
        (fun a b => b.price ≤ a.price) ∧
      ((specFiltered toLowerCase s.products cat (s.searchInput.getD "")).length ≤ (k + 1) * 18 →
        (shownAfter toLowerCase k (showCategory toLowerCase s cat)).Perm
          (specFiltered toLowerCase s.products cat (s.searchInput.getD "")))) ∧
    (s.sortSelect ≠ some "price-asc" → s.sortSelect ≠ some "price-desc" →
      shownAfter toLowerCase k (showCategory toLowerCase s cat) =
        (specFiltered toLowerCase s.products cat (s.searchInput.getD "")).take ((k + 1) * 18) ∧
      (shownAfter toLowerCase k (showCategory toLowerCase s cat)).Sublist s.products ∧
      (s.products.Sorted (fun a b => a.id < b.id) →
        (shownAfter toLowerCase k (showCategory toLowerCase s cat)).Sorted
          (fun a b => a.id < b.id))) := by
  have hV : shownAfter toLowerCase k (showCategory toLowerCase s cat) =
      (specList toLowerCase s.products cat (s.searchInput.getD "") s.sortSelect).take
        ((k + 1) * 18) :=
    pages_after_reset toLowerCase
      { s with currentCategory := cat, visibleProducts := [], currentPage := 1 } k
  have hall : ∀ L : List Product, L.length ≤ (k + 1) * 18 → L.take ((k + 1) * 18) = L :=
    fun L h => List.take_of_length_le h
  refine ⟨fun h => ?_, fun h => ?_, fun h1 h2 => ?_⟩
  · rw [hV, h]
    refine ⟨List.Pairwise.sublist (List.take_sublist _ _) (specList_sorted_asc _ _ _ _), fun hn => ?_⟩
    rw [hall _ (by rw [(specList_perm _ _ _ _ _).length_eq]; exact hn)]
    exact specList_perm _ _ _ _ _
  · rw [hV, h]
    refine ⟨List.Pairwise.sublist (List.take_sublist _ _) (specList_sorted_desc _ _ _ _), fun hn => ?_⟩
    rw [hall _ (by rw [(specList_perm _ _ _ _ _).length_eq]; exact hn)]
    exact specList_perm _ _ _ _ _
  · rw [hV, specList_default _ _ _ _ _ h1 h2]
    have hsub : ((specFiltered toLowerCase s.products cat (s.searchInput.getD "")).take
        ((k + 1) * 18)).Sublist s.products :=
      (List.take_sublist _ _).trans (specFiltered_sublist _ _ _ _)
    exact ⟨rfl, hsub, fun hs => List.Pairwise.sublist hsub hs⟩

set_option maxRecDepth 100000 in
/-- Instances of `price_sort_order` on the forty-product catalog after two calls of
`loadMore()`: ascending, descending and default order. -/
theorem price_sort_order_witness :
    ((specFiltered asciiLower longProducts "all" " ITEM ").length ≤ (2 + 1) * 18 ∧
      longProducts.Sorted (fun a b => a.id < b.id)) ∧
    ((shownAfter asciiLower 2 (showCategory asciiLower (longState "price-asc") "all")).Sorted
        (fun a b => a.price ≤ b.price) ∧
      (shownAfter asciiLower 2 (showCategory asciiLower (longState "price-asc") "all")).Perm
        (specFiltered asciiLower longProducts "all" " ITEM ")) ∧
    ((shownAfter asciiLower 2 (showCategory asciiLower (longState "price-desc") "all")).Sorted
        (fun a b => b.price ≤ a.price) ∧
      (shownAfter asciiLower 2 (showCategory asciiLower (longState "price-desc") "all")).Perm
        (specFiltered asciiLower longProducts "all" " ITEM ")) ∧
    (shownAfter asciiLower 2 (showCategory asciiLower (longState "default") "all")).Sorted
      (fun a b => a.id < b.id) :=
  ⟨⟨by decide, by decide⟩,
    ⟨((price_sort_order asciiLower (longState "price-asc") "all" 2).1 rfl).1,
      ((price_sort_order asciiLower (longState "price-asc") "all" 2).1 rfl).2 (by decide)⟩,
    ⟨((price_sort_order asciiLower (longState "price-desc") "all" 2).2.1 rfl).1,
      ((price_sort_order asciiLower (longState "price-desc") "all" 2).2.1 rfl).2 (by decide)⟩,
    ((price_sort_order asciiLower (longState "default") "all" 2).2.2 (by decide) (by decide)).2.2
      (by decide)⟩
/-! ## Address suggestions -/

/-- Every result handed to `showSuggestions` is rendered: a non-empty list of
results gives as many items as it has results. -/
theorem showSuggestions_length (listEl : SuggestionList) (items : List Place) (h : items ≠ []) :
    (showSuggestions listEl (some items)).items.length = items.length := by
  cases items with
  | nil => exact absurd rfl h
  | cons x xs => simp [showSuggestions]

/-- The function `showSuggestions` has no cap of its own: handed six results it
renders six items.  The bound of 5 comes from the request. -/
theorem showSuggestions_no_local_cap :
    (showSuggestions initialList (some sixPlaces)).items.length = 6 := by
  decide

theorem fetchAddressSuggestions_length (q : String) (r : Response (searchRequest q)) :
    (fetchAddressSuggestions q r).length ≤ 5 := by
  cases r with
  | failed => simp [fetchAddressSuggestions]
  | received ok data honoured =>
    cases ok
    · simp [fetchAddressSuggestions]
    · simpa [fetchAddressSuggestions, searchRequest] using honoured

/-- C7: the address autocomplete shows up to 5 suggestions.  Every value that
`fetchAddressSuggestions(q)` can resolve to (the empty list on a failure or a reply
that is not ok, otherwise the reply to its `limit=5` request) has at most 5
results; handed to `showSuggestions`, a non-empty value is displayed with exactly
one item per result, so at most 5 items, and an empty value hides the list and
leaves its items as they were; a list of at most 5 items therefore still has at
most 5 items afterwards. -/
theorem suggestions_at_most_five (q : String) (r : Response (searchRequest q))
    (listEl : SuggestionList) :
    (fetchAddressSuggestions q r).length ≤ 5 ∧
    (fetchAddressSuggestions q r ≠ [] →
      (showSuggestions listEl (some (fetchAddressSuggestions q r))).shown = true ∧
      (showSuggestions listEl (some (fetchAddressSuggestions q r))).items.length =
        (fetchAddressSuggestions q r).length ∧
      (showSuggestions listEl (some (fetchAddressSuggestions q r))).items.length ≤ 5) ∧
    (fetchAddressSuggestions q r = [] →
      (showSuggestions listEl (some (fetchAddressSuggestions q r))).shown = false ∧
      (showSuggestions listEl (some (fetchAddressSuggestions q r))).items = listEl.items) ∧
    (listEl.items.length ≤ 5 →
      (showSuggestions listEl (some (fetchAddressSuggestions q r))).items.length ≤ 5) := by
  have hlen := fetchAddressSuggestions_length q r
  have hne : fetchAddressSuggestions q r ≠ [] →
      (showSuggestions listEl (some (fetchAddressSuggestions q r))).shown = true ∧
      (showSuggestions listEl (some (fetchAddressSuggestions q r))).items.length =
        (fetchAddressSuggestions q r).length := by
    intro h
    refine ⟨?_, showSuggestions_length listEl _ h⟩
    cases hr : fetchAddressSuggestions q r with
    | nil => exact absurd hr h
    | cons x xs => rfl
  have hnil : fetchAddressSuggestions q r = [] →
      (showSuggestions listEl (some (fetchAddressSuggestions q r))).shown = false ∧
      (showSuggestions listEl (some (fetchAddressSuggestions q r))).items = listEl.items := by
    intro h
    rw [h]
    exact ⟨rfl, rfl⟩
  refine ⟨hlen, fun h => ⟨(hne h).1, (hne h).2, by rw [(hne h).2]; exact hlen⟩, hnil, fun hl => ?_⟩
  by_cases h : fetchAddressSuggestions q r = []
  · rw [(hnil h).2]; exact hl
  · rw [(hne h).2]; exact hlen

/-- Instances of `suggestions_at_most_five`: a reply of five results to the query
"Dhaka" on the initial list gives five displayed items, and a failed request on a
list of five items hides it with its five items kept. -/
theorem suggestions_at_most_five_witness :
    (fetchAddressSuggestions "Dhaka" (.received true fivePlaces (by decide)) ≠ [] ∧
      (showSuggestions initialList
        (some (fetchAddressSuggestions "Dhaka" (.received true fivePlaces (by decide))))).shown
          = true ∧
      (showSuggestions initialList
        (some (fetchAddressSuggestions "Dhaka"
          (.received true fivePlaces (by decide))))).items.length = 5) ∧
    ((showSuggestions initialList (some fivePlaces)).items.length ≤ 5 ∧
      (showSuggestions (showSuggestions initialList (some fivePlaces))
        (some (fetchAddressSuggestions "Dhaka" .failed))).shown = false ∧
      (showSuggestions (showSuggestions initialList (some fivePlaces))
        (some (fetchAddressSuggestions "Dhaka" .failed))).items.length ≤ 5) :=
  ⟨⟨by decide,
      ((suggestions_at_most_five "Dhaka" (.received true fivePlaces (by decide))
        initialList).2.1 (by decide)).1,
      ((suggestions_at_most_five "Dhaka" (.received true fivePlaces (by decide))
        initialList).2.1 (by decide)).2.1⟩,
    ⟨by decide,
      ((suggestions_at_most_five "Dhaka" .failed
        (showSuggestions initialList (some fivePlaces))).2.2.1 rfl).1,
      (suggestions_at_most_five "Dhaka" .failed
        (showSuggestions initialList (some fivePlaces))).2.2.2 (by decide)⟩⟩

end ShopnarShop
